import Mathlib

/-!
Shallow embedding of the booking engine of this repository
(`utils.py`, `booking_service.py`, `database.py`, `app.py`, `config.py`).

Conventions used throughout:
* Python `None`-able strings (form fields, nullable DB columns) are `Option String`.
* A Python call that raises an uncaught exception is modelled by an `Option`
  result being `none` (or an explicit `Except`), never by a default value.
* Times of day are parsed to minutes after midnight (`Nat`); the slot-generator
  loop itself runs over `Int` minute offsets, since Python `datetime` arithmetic
  is unbounded for the purposes of the loop guard.
* The `while` loop of `generate_time_slots` is embedded operationally with a
  fuel parameter: `none` means the loop did not finish within the given fuel,
  so `(∀ fuel, … = none)` states genuine non-termination of the source loop.
-/

namespace Booking

set_option maxRecDepth 16384

/-- Calendar date, as produced by `datetime.strptime(s, "%Y-%m-%d").date()`. -/
structure DateT where
  y : Nat
  m : Nat
  d : Nat
deriving DecidableEq, Repr

/-- Chronological order on dates (Python `date` comparison). -/
def dateLe (a b : DateT) : Bool :=
  (a.y < b.y) || (a.y = b.y && a.m < b.m) || (a.y = b.y && a.m = b.m && a.d ≤ b.d)

/-- Gregorian leap-year rule used by Python's `datetime`. -/
def leapYear (y : Nat) : Bool :=
  (y % 4 = 0 && y % 100 ≠ 0) || y % 400 = 0

/-- Number of days in a month, as `datetime` validates it. -/
def daysInMonth (y m : Nat) : Nat :=
  if m = 2 then (if leapYear y then 29 else 28)
  else if m = 4 || m = 6 || m = 9 || m = 11 then 30
  else 31

/-- Split a character list at every occurrence of `sep`
(structural-recursion counterpart of Python's field splitting, used so that
parsing reduces definitionally in the kernel). -/
def splitOnChar (sep : Char) : List Char → List (List Char)
  | [] => [[]]
  | c :: cs =>
    if c = sep then [] :: splitOnChar sep cs
    else
      match splitOnChar sep cs with
      | h :: t => (c :: h) :: t
      | [] => [[c]]

/-- Digits-only check for a nonempty character field. -/
def allDigits (cs : List Char) : Bool :=
  cs.length > 0 && cs.all Char.isDigit

/-- Value of a digit field (no sign). -/
def digitsVal (cs : List Char) : Nat :=
  cs.foldl (fun a c => a * 10 + (c.toNat - 48)) 0

/-- `datetime.strptime(s, "%H:%M")`, returned as minutes after midnight.
`%H`/`%M` accept one or two digits; hour must be ≤ 23 and minute ≤ 59;
any surrounding garbage raises `ValueError` (modelled as `none`). -/
def parseHM (s : String) : Option Nat :=
  match splitOnChar ':' s.data with
  | [h, m] =>
    if allDigits h && h.length ≤ 2 && allDigits m && m.length ≤ 2 then
      let hv := digitsVal h
      let mv := digitsVal m
      if hv ≤ 23 && mv ≤ 59 then some (hv * 60 + mv) else none
    else none
  | _ => none

/-- `datetime.strptime(s, "%Y-%m-%d")`: calendar-valid dates only. -/
def parseDate (s : String) : Option DateT :=
  match splitOnChar '-' s.data with
  | [ys, ms, ds] =>
    if allDigits ys && ys.length ≤ 4 && allDigits ms && ms.length ≤ 2 &&
       allDigits ds && ds.length ≤ 2 then
      let y := digitsVal ys
      let m := digitsVal ms
      let d := digitsVal ds
      if 1 ≤ m && m ≤ 12 && 1 ≤ d && d ≤ daysInMonth y m && 1 ≤ y then
        some ⟨y, m, d⟩
      else none
    else none
  | _ => none

/-- `utils.is_valid_date` on an actual string argument: parses the date and
requires it not to be strictly in the past (`input_date >= today`);
a `ValueError` from parsing is caught and yields `False`. -/
def dateOkStr (today : DateT) (s : String) : Bool :=
  match parseDate s with
  | some dt => dateLe today dt
  | none => false

/-- `utils.is_valid_date` as called with a possibly-`None` argument:
`strptime(None, …)` raises `TypeError`, which the function does not catch. -/
def is_valid_date (today : DateT) : Option String → Option Bool
  | none => none
  | some s => some (dateOkStr today s)

/-- Zero-padded two-digit rendering, as `strftime` does. -/
def pad2 (n : Nat) : String :=
  if n < 10 then "0" ++ toString n else toString n

/-- `strftime("%H:%M")` of a minute offset (wrapped into the day, as a
`datetime` crossing midnight would render). -/
def fmtMin (t : Int) : String :=
  let u := (t % 1440).toNat
  pad2 (u / 60) ++ ":" ++ pad2 (u % 60)

/-- The `while current + duration <= end` loop of `utils.generate_time_slots`,
run with explicit fuel.  `none` means the loop had not exited after `fuel`
iterations; since the loop body is deterministic, `∀ fuel, … = none` says the
source loop never terminates. -/
def slotsLoop : Nat → Int → Int → Int → Option (List Int)
  | 0, _, _, _ => none
  | fuel + 1, current, dur, endT =>
    if current + dur ≤ endT then
      match slotsLoop fuel (current + dur) dur endT with
      | some rest => some (current :: rest)
      | none => none
    else
      some []

/-- `utils.generate_time_slots(start_time, end_time, duration)`.
`none` covers the two ways the call can fail to return a list: a `ValueError`
from `strptime`, or the loop not terminating (the fuel `(e - s).toNat + 1`
is sufficient for every positive duration, see `slotsLoop_char`). -/
def generate_time_slots (startS endS : String) (dur : Int) : Option (List String) :=
  match parseHM startS, parseHM endS with
  | some s, some e =>
    match slotsLoop (((e : Int) - (s : Int)).toNat + 1) (s : Int) dur (e : Int) with
    | some l => some (l.map fmtMin)
    | none => none
  | _, _ => none

/-- The schedule/location configuration (`config.py`'s dynamic config keys
that the engine reads).  Numeric fields are Python ints. -/
structure Config where
  locations : List String
  blood_test_start_time : String
  blood_test_end_time : String
  blood_test_allowed_dates : List String
  slot_duration_blood : Int
  blood_test_cabins_count : Int
  people_per_blood_cabin : Int
  consultation_start_time : String
  consultation_end_time : String
  slot_duration_consultation : Int
  consultation_cabins_count : Int
  people_per_consultation_cabin : Int
  consultation_allowed_dates : List String
deriving DecidableEq, Repr

/-- `config.py` `DEFAULT_CONFIG`. -/
def defaultConfig : Config where
  locations := ["bangalore", "gurugram", "pune", "hyderabad"]
  blood_test_start_time := "09:00"
  blood_test_end_time := "13:00"
  blood_test_allowed_dates := ["2025-08-19", "2025-08-20", "2025-08-21", "2025-08-22"]
  slot_duration_blood := 15
  blood_test_cabins_count := 4
  people_per_blood_cabin := 4
  consultation_start_time := "10:00"
  consultation_end_time := "18:00"
  slot_duration_consultation := 30
  consultation_cabins_count := 4
  people_per_consultation_cabin := 1
  consultation_allowed_dates := ["2025-08-25", "2025-08-26", "2025-08-28", "2025-08-29"]

/-- A raw form submission: `request.form.get(key)` for each key used by
`utils.validate_booking_data` (`None` when the field is absent). -/
structure FormData where
  name : Option String
  email : Option String
  age : Option String
  gender : Option String
  phone : Option String
  location : Option String
  blood_test_date : Option String
  blood_test_time : Option String
  blood_test_cabin : Option String
  consultation_date : Option String
  consultation_time : Option String
deriving DecidableEq, Repr

/-- The `processed_data` dict built by `validate_booking_data`, which is also
the row shape stored by `database.save_booking`.  `blood_test_cabin` is the
converted int when the blood-test branch converted it; when
`blood_test_date` is falsy the raw (string-or-`None`) value is kept by the
source, but no reachable consumer ever observes it (such a submission is
always rejected or crashes before saving), so it is modelled as `none`. -/
structure BookingData where
  name : String
  email : String
  age : Int
  gender : String
  phone : String
  location : String
  blood_test_date : Option String
  blood_test_time : Option String
  blood_test_cabin : Option Int
  consultation_date : Option String
  consultation_time : Option String
deriving DecidableEq, Repr

/-- The `bookings` table plus sqlite's autoincrement row-id counter.
Invariantly every stored id is below `nextId`. -/
structure DB where
  nextId : Nat
  rows : List (Nat × BookingData)
deriving DecidableEq, Repr

def emptyDB : DB := ⟨0, []⟩

/-- `SELECT COUNT(*) FROM bookings WHERE p` over the current table. -/
def countRows (rows : List (Nat × BookingData)) (p : BookingData → Bool) : Nat :=
  (rows.filter (fun r => p r.2)).length

/-- `database.save_booking`: INSERT returning the fresh row id. -/
def save_booking (db : DB) (bd : BookingData) : Nat × DB :=
  (db.nextId, ⟨db.nextId + 1, db.rows ++ [(db.nextId, bd)]⟩)

/-- `database.delete_booking_by_id`: look the row up by id, delete it, and
report `(success, name)`. -/
def delete_booking_by_id (db : DB) (id : Nat) : (Bool × Option String) × DB :=
  match db.rows.find? (fun r => r.1 = id) with
  | none => ((false, none), db)
  | some r => ((true, some r.2.name), ⟨db.nextId, db.rows.filter (fun q => q.1 ≠ id)⟩)

/-- `BloodTestService.get_available_slots(date, cabin, location)`.
The `date` and `cabin` arguments arrive as whatever the caller held
(possibly `None`); `is_valid_date(None)` raises `TypeError` (outer `none`).
The SQL filter `blood_test_cabin = ?` with a NULL parameter matches no row. -/
def blood_get_available_slots (cfg : Config) (today : DateT) (db : DB)
    (date : Option String) (cabin : Option Int) (loc : String) :
    Option (List String) :=
  match date with
  | none => none
  | some d =>
    if ¬ dateOkStr today d then some [] else
    match generate_time_slots cfg.blood_test_start_time cfg.blood_test_end_time
        cfg.slot_duration_blood with
    | none => none
    | some all_slots =>
      some (all_slots.filter (fun slot =>
        (countRows db.rows (fun r =>
            r.blood_test_date == some d &&
            (match cabin with | some c => r.blood_test_cabin == some c | none => false) &&
            r.location == loc && r.blood_test_time == some slot) : Int)
          < cfg.people_per_blood_cabin))

/-- `(List.range n).map (· + 1)` over a Python `range(1, cabins_count + 1)`. -/
def cabinsRange (c : Int) : List Int :=
  (List.range c.toNat).map (fun i : Nat => (i : Int) + 1)

/-- `BloodTestService.get_cabin_availability(date, location)`: per-cabin
remaining seats, `max(0, total_slots * people_per_cabin - booked)`. -/
def get_cabin_availability (cfg : Config) (today : DateT) (db : DB)
    (date : Option String) (loc : String) : Option (List (Int × Int)) :=
  match date with
  | none => none
  | some d =>
    if ¬ dateOkStr today d then some [] else
    match generate_time_slots cfg.blood_test_start_time cfg.blood_test_end_time
        cfg.slot_duration_blood with
    | none => none
    | some all_slots =>
      let total_slots : Int := all_slots.length
      some ((cabinsRange cfg.blood_test_cabins_count).map (fun cabin =>
        let booked : Int := countRows db.rows (fun r =>
          r.blood_test_date == some d && r.blood_test_cabin == some cabin &&
          r.location == loc)
        (cabin, max 0 (total_slots * cfg.people_per_blood_cabin - booked))))

/-- `BloodTestService.get_slots_with_availability(date, cabin, location)`:
per-slot remaining seats, `max(0, people_per_cabin - booked)`. -/
def get_slots_with_availability (cfg : Config) (today : DateT) (db : DB)
    (date : Option String) (cabin : Option Int) (loc : String) :
    Option (List (String × Int)) :=
  match date with
  | none => none
  | some d =>
    if ¬ dateOkStr today d then some [] else
    match generate_time_slots cfg.blood_test_start_time cfg.blood_test_end_time
        cfg.slot_duration_blood with
    | none => none
    | some all_slots =>
      some (all_slots.map (fun slot =>
        let booked : Int := countRows db.rows (fun r =>
          r.blood_test_date == some d &&
          (match cabin with | some c => r.blood_test_cabin == some c | none => false) &&
          r.location == loc && r.blood_test_time == some slot)
        (slot, max 0 (cfg.people_per_blood_cabin - booked))))

/-- `ConsultationService.get_available_slots(date, location)`.  Returns
Python `None` (inner `none`) when the date fails `is_valid_date`, otherwise
the slots whose pooled count is below `cabins_count * people_per_cabin`. -/
def consultation_get_available_slots (cfg : Config) (today : DateT) (db : DB)
    (date : Option String) (loc : String) : Option (Option (List String)) :=
  match date with
  | none => none
  | some d =>
    if ¬ dateOkStr today d then some none else
    match generate_time_slots cfg.consultation_start_time cfg.consultation_end_time
        cfg.slot_duration_consultation with
    | none => none
    | some all_slots =>
      some (some (all_slots.filter (fun slot =>
        (countRows db.rows (fun r =>
            r.consultation_date == some d && r.consultation_time == some slot &&
            r.location == loc) : Int)
          < cfg.consultation_cabins_count * cfg.people_per_consultation_cabin)))

/-- Python truthiness of an optional form value (`None` and `""` are falsy). -/
def truthy (o : Option String) : Bool :=
  o.getD "" ≠ ""

/-- Value of an optional form field (only consulted where truthiness has
already guaranteed it is a nonempty string). -/
def vget (o : Option String) : String :=
  o.getD ""

/-- Exceptions that `int(x)` can raise inside `validate_booking_data`.
The rendered text of CPython's messages is abstracted to a fixed string per
exception site; nothing in the code inspects it beyond `str(e)`. -/
inductive PyExn where
  | typeErrorNone
  | valueError (lit : String)
deriving DecidableEq, Repr

def PyExn.descr : PyExn → String
  | .typeErrorNone => "int() argument must be a string, not NoneType"
  | .valueError lit => "invalid literal for int() with base 10: " ++ lit

/-- Strip leading and trailing whitespace from a character list. -/
def trimChars (cs : List Char) : List Char :=
  ((cs.dropWhile Char.isWhitespace).reverse.dropWhile Char.isWhitespace).reverse

/-- Python `int(s)` on a string: optional surrounding whitespace, optional
sign, then decimal digits. -/
def strToInt (s : String) : Option Int :=
  match trimChars s.data with
  | [] => none
  | '+' :: rest =>
    if rest ≠ [] && rest.all Char.isDigit
    then some ((digitsVal rest : Nat) : Int) else none
  | '-' :: rest =>
    if rest ≠ [] && rest.all Char.isDigit
    then some (-((digitsVal rest : Nat) : Int)) else none
  | cs =>
    if cs.all Char.isDigit then some ((digitsVal cs : Nat) : Int) else none

/-- Python `int(x)` on a possibly-`None` form value: `TypeError` on `None`,
`ValueError` on a non-numeric string. -/
def pyInt : Option String → Except PyExn Int
  | none => .error .typeErrorNone
  | some s =>
    match strToInt s with
    | some v => .ok v
    | none => .error (.valueError s)

/-- The body of `utils.validate_booking_data` up to (but excluding) its
enclosing `try`/`except`: exceptions propagate as `.error`. -/
def validate_booking_data_inner (cfg : Config) (today : DateT) (fd : FormData) :
    Except PyExn (Bool × Option String × Option BookingData) :=
  if ¬ (truthy fd.name && truthy fd.email && truthy fd.age && truthy fd.gender &&
        truthy fd.phone && truthy fd.location) then
    .ok (false, some "Please fill in all required fields", none)
  else if ¬ cfg.locations.contains (vget fd.location) then
    .ok (false, some "Invalid location selected", none)
  else
    match strToInt (vget fd.age) with
    | none => .ok (false, some "Invalid age or cabin number", none)
    | some ageV =>
      -- `if blood_test_date:` — the cabin conversion happens first and its
      -- failure is only caught by the function's outer `except Exception`.
      match truthy fd.blood_test_date with
      | true =>
        match pyInt fd.blood_test_cabin with
        | .error e => .error e
        | .ok cabinV =>
          if ¬ dateOkStr today (vget fd.blood_test_date) then
            .ok (false, some "Invalid blood test date or date is in the past", none)
          else if truthy fd.consultation_date &&
                  !(dateOkStr today (vget fd.consultation_date)) then
            .ok (false, some "Invalid consultation date or date is in the past", none)
          else
            .ok (true, none, some
              { name := vget fd.name, email := vget fd.email, age := ageV
                gender := vget fd.gender, phone := vget fd.phone
                location := vget fd.location
                blood_test_date := fd.blood_test_date
                blood_test_time := fd.blood_test_time
                blood_test_cabin := some cabinV
                consultation_date := fd.consultation_date
                consultation_time := fd.consultation_time })
      | false =>
        if truthy fd.consultation_date &&
           !(dateOkStr today (vget fd.consultation_date)) then
          .ok (false, some "Invalid consultation date or date is in the past", none)
        else
          .ok (true, none, some
            { name := vget fd.name, email := vget fd.email, age := ageV
              gender := vget fd.gender, phone := vget fd.phone
              location := vget fd.location
              blood_test_date := fd.blood_test_date
              blood_test_time := fd.blood_test_time
              blood_test_cabin := none
              consultation_date := fd.consultation_date
              consultation_time := fd.consultation_time })

/-- `utils.validate_booking_data`: the whole body runs under
`try … except Exception`, so every exception is converted into the
`(False, "Error validating data: …", None)` triple. -/
def validate_booking_data (cfg : Config) (today : DateT) (fd : FormData) :
    Bool × Option String × Option BookingData :=
  match validate_booking_data_inner cfg today fd with
  | .ok t => t
  | .error e => (false, some ("Error validating data: " ++ e.descr), none)

/-- `app.validate_blood_test_date`: format check, then string membership in
the allowed-dates list. -/
def validate_blood_test_date (cfg : Config) (d : String) : Bool :=
  (parseDate d).isSome && cfg.blood_test_allowed_dates.contains d

/-- `app.validate_consultation_date`. -/
def validate_consultation_date (cfg : Config) (d : String) : Bool :=
  (parseDate d).isSome && cfg.consultation_allowed_dates.contains d

/-- `BookingManager.validate_slot_availability`.  Outer `none` models an
uncaught exception (a `None` blood-test date reaching `is_valid_date`, or a
`None` consultation availability list reaching `x in …`).  The
`location.title()` interpolation in the two messages is abstracted away. -/
def validate_slot_availability (cfg : Config) (today : DateT) (db : DB)
    (bd : BookingData) : Option (Bool × Option String) :=
  if bd.location = "" then some (false, some "Location is required") else
  if ¬ cfg.locations.contains bd.location then
    some (false, some "Invalid location selected") else
  match blood_get_available_slots cfg today db bd.blood_test_date
      bd.blood_test_cabin bd.location with
  | none => none
  | some blood_available =>
    let timeOk : Bool :=
      match bd.blood_test_time with
      | some t => blood_available.contains t
      | none => false
    if ¬ timeOk then
      some (false, some "Selected blood test slot is no longer available")
    else if truthy bd.consultation_date && truthy bd.consultation_time then
      match consultation_get_available_slots cfg today db bd.consultation_date
          bd.location with
      | none => none
      | some none => none  -- `x in None` raises TypeError in the source
      | some (some consultation_available) =>
        if ¬ consultation_available.contains (vget bd.consultation_time) then
          some (false, some "Selected consultation slot is no longer available")
        else some (true, none)
    else some (true, none)

/-- Outcome of one `submit_booking` request: every validation failure and
every caught exception ends in a redirect to the index page carrying only a
server-side message; success redirects to the confirmation page. -/
inductive SubmitResult where
  | redirected (msg : String)
  | success (id : Nat)
deriving DecidableEq, Repr

/-- `app.submit_booking` (the sequential request handler): form validation,
location and allowed-date checks, slot-availability check, then the INSERT.
The handler's `except Exception` turns any raised error into a redirect. -/
def submit_booking (cfg : Config) (today : DateT) (db : DB) (fd : FormData) :
    SubmitResult × DB :=
  match validate_booking_data cfg today fd with
  | (false, msg, _) => (.redirected (vget msg), db)
  | (true, _, none) => (.redirected "Error processing booking", db)
  | (true, _, some bd) =>
    if ¬ cfg.locations.contains bd.location then
      (.redirected "Invalid location selected.", db)
    else if truthy bd.blood_test_date &&
            !(validate_blood_test_date cfg (vget bd.blood_test_date)) then
      (.redirected "Invalid blood test date. Please select from the available dates.", db)
    else if truthy bd.consultation_date &&
            !(validate_consultation_date cfg (vget bd.consultation_date)) then
      (.redirected "Invalid consultation date. Please select from the available dates.", db)
    else
      match validate_slot_availability cfg today db bd with
      | none => (.redirected "Error processing booking", db)
      | some (false, msg) => (.redirected (vget msg), db)
      | some (true, _) =>
        let r := save_booking db bd
        (.success r.1, r.2)

/-! ## Concurrency model

Each HTTP request handled by `submit_booking` touches the shared database in
two separate steps, on two separate sqlite connections: first the
availability *read* inside `validate_slot_availability`, then the INSERT
*write* in `save_booking`.  Nothing serializes the two against other
requests, so another request's INSERT may land in between.  The model below
runs a set of submissions under an explicit interleaving of those two
atomic steps per request.  All database-independent validation is folded
into the read step, which is faithful because only
`validate_slot_availability` and `save_booking` read or write shared
state. -/

/-- The database-dependent *decision* phase of one `submit_booking` request:
everything up to and including the availability check, against the database
state at read time.  `some bd` means the request will go on to INSERT `bd`;
`none` means it ends in a redirect without writing. -/
def commitDecision (cfg : Config) (today : DateT) (db : DB) (fd : FormData) :
    Option BookingData :=
  match validate_booking_data cfg today fd with
  | (true, _, some bd) =>
    if cfg.locations.contains bd.location &&
       !(truthy bd.blood_test_date &&
         !validate_blood_test_date cfg (vget bd.blood_test_date)) &&
       !(truthy bd.consultation_date &&
         !validate_consultation_date cfg (vget bd.consultation_date)) then
      match validate_slot_availability cfg today db bd with
      | some (true, _) => some bd
      | _ => none
    else none
  | _ => none

/-- One atomic step of request `i`: its availability read or its INSERT. -/
inductive Act where
  | read (i : Nat)
  | write (i : Nat)
deriving DecidableEq, Repr

/-- Scheduler state: shared database, per-request recorded decision
(`none` = read not yet performed), per-request final outcome
(`some (some id)` = committed with row id, `some none` = rejected). -/
structure ConcState where
  db : DB
  decs : List (Option (Option BookingData))
  ress : List (Option (Option Nat))
deriving DecidableEq, Repr

/-- Execute one scheduled atomic step. -/
def stepAct (cfg : Config) (today : DateT) (subs : List FormData)
    (st : ConcState) (a : Act) : ConcState :=
  match a with
  | .read i =>
    match subs[i]? with
    | none => st
    | some fd => { st with decs := st.decs.set i (some (commitDecision cfg today st.db fd)) }
  | .write i =>
    match st.decs[i]? with
    | some (some (some bd)) =>
      let r := save_booking st.db bd
      { st with db := r.2, ress := st.ress.set i (some (some r.1)) }
    | some (some none) => { st with ress := st.ress.set i (some none) }
    | _ => st

/-- Run a full interleaving of the submissions' read/write steps. -/
def runActs (cfg : Config) (today : DateT) (subs : List FormData)
    (acts : List Act) (db : DB) : ConcState :=
  acts.foldl (stepAct cfg today subs)
    ⟨db, List.replicate subs.length none, List.replicate subs.length none⟩

/-! ## Concrete fixtures used by the concrete-instance theorems -/

/-- A reference "current date" for concrete runs: the first allowed
blood-test date of the default configuration. -/
def today0 : DateT := ⟨2025, 8, 19⟩

/-- A well-formed submission for a blood test only. -/
def fdGood : FormData where
  name := some "alice"
  email := some "alice@example.com"
  age := some "30"
  gender := some "f"
  phone := some "99"
  location := some "bangalore"
  blood_test_date := some "2025-08-19"
  blood_test_time := some "09:00"
  blood_test_cabin := some "1"
  consultation_date := none
  consultation_time := none

/-- The default configuration with per-cabin-per-slot headcount shrunk to 1
(an admin-reachable setting: the config validator allows 1–10). -/
def cfgRace : Config := { defaultConfig with people_per_blood_cabin := 1 }

/-- `fdGood` with cabin number 5, outside the configured range `[1, 4]`. -/
def fdCab5 : FormData := { fdGood with blood_test_cabin := some "5" }

/-- `fdGood` with a non-numeric cabin field. -/
def fdBadCabin : FormData := { fdGood with blood_test_cabin := some "abc" }

/-- `fdGood` extended with a consultation leg. -/
def fdBoth : FormData :=
  { fdGood with consultation_date := some "2025-08-25"
                consultation_time := some "10:00" }

/-- A stored consultation-only reservation at the slot `fdBoth` asks for. -/
def consRow : BookingData where
  name := "prior"
  email := "prior@example.com"
  age := 40
  gender := "m"
  phone := "11"
  location := "bangalore"
  blood_test_date := none
  blood_test_time := none
  blood_test_cabin := none
  consultation_date := some "2025-08-25"
  consultation_time := some "10:00"

/-- Four committed consultations: the pooled consultation capacity
`4 cabins x 1 person` for that slot is exhausted. -/
def dbConsFull : DB := ⟨4, [(0, consRow), (1, consRow), (2, consRow), (3, consRow)]⟩

/-- A stored blood-test reservation (cabin 1, 09:00). -/
def bloodRow : BookingData where
  name := "prior"
  email := "prior@example.com"
  age := 40
  gender := "m"
  phone := "11"
  location := "bangalore"
  blood_test_date := some "2025-08-19"
  blood_test_time := some "09:00"
  blood_test_cabin := some 1
  consultation_date := none
  consultation_time := none

/-- Three committed blood tests against a shrunken schedule (two slots,
one person per cabin): capacity is below the booked count. -/
def dbShrink : DB := ⟨3, [(0, bloodRow), (1, bloodRow), (2, bloodRow)]⟩

/-- A shrunken schedule: window 09:00–09:30, 15-minute slots (2 slots),
one person per cabin per slot. -/
def cfgShrink : Config :=
  { defaultConfig with blood_test_end_time := "09:30", people_per_blood_cabin := 1 }

/-! ## Lemmas about the slot-generator loop -/

/-- For a positive duration, the loop of `generate_time_slots` terminates
within `(e - c).toNat + 1` iterations and produces exactly the arithmetic
progression of start times whose slot still fits before closing. -/
theorem slotsLoop_char (d : Int) (hd : 1 ≤ d) :
    ∀ (fuel : Nat) (c e : Int), (e - c).toNat < fuel →
      ∃ out : List Int,
        slotsLoop fuel c d e = some out ∧
        out = (List.range out.length).map (fun k : Nat => c + (k : Int) * d) ∧
        (∀ k : Nat, (c + (k : Int) * d + d ≤ e ↔ k < out.length)) := by
  intro fuel
  induction fuel with
  | zero => intro c e h; exact absurd h (Nat.not_lt_zero _)
  | succ n ih =>
    intro c e h
    by_cases hce : c + d ≤ e
    · have hlt : (e - (c + d)).toNat < n := by omega
      obtain ⟨out, hrun, hshape, hiff⟩ := ih (c + d) e hlt
      refine ⟨c :: out, ?_, ?_, ?_⟩
      · simp [slotsLoop, hce, hrun]
      · have h0 : c + (0 : Int) * d = c := by ring
        calc c :: out
            = c :: (List.range out.length).map (fun k : Nat => (c + d) + (k : Int) * d) := by
              rw [← hshape]
          _ = (List.range (out.length + 1)).map (fun k : Nat => c + (k : Int) * d) := by
              rw [List.range_succ_eq_map, List.map_cons, List.map_map]
              refine congrArg₂ _ (by ring) (List.map_congr_left ?_)
              intro k _
              simp only [Function.comp_apply]
              push_cast
              ring
          _ = (List.range (c :: out).length).map (fun k : Nat => c + (k : Int) * d) := by
              simp
      · intro k
        cases k with
        | zero =>
          simp only [List.length_cons, Nat.cast_zero, zero_mul, add_zero]
          exact iff_of_true hce (Nat.succ_pos _)
        | succ j =>
          have hj := hiff j
          have harith : c + ((j + 1 : Nat) : Int) * d + d = (c + d) + (j : Int) * d + d := by
            push_cast; ring
          rw [List.length_cons, harith, hj]
          omega
    · refine ⟨[], by simp [slotsLoop, hce], by simp, ?_⟩
      intro k
      simp only [List.length_nil, Nat.not_lt_zero, iff_false]
      intro hle
      have hk : (0 : Int) ≤ (k : Int) * d :=
        mul_nonneg (Int.natCast_nonneg k) (le_trans zero_le_one hd)
      exact hce (by linarith)


/-! ## Claim theorems: slot generator -/

/-- C3: the claim says `generate_time_slots` returns an empty sequence for
`duration_minutes <= 0`.  It does not: with duration `0` and
`open_time < close_time` the loop guard `current + duration <= end` never
becomes false, so the loop never terminates (no fuel bound suffices).  This
contradicts the documented degenerate-case behavior, so the code is the bug. -/
theorem c3_duration_zero_never_returns :
    parseHM "09:00" = some 540 ∧ parseHM "13:00" = some 780 ∧
    (∀ fuel : Nat, slotsLoop fuel 540 0 780 = none) ∧
    generate_time_slots "09:00" "13:00" 0 = none := by
  have hloop : ∀ fuel : Nat, slotsLoop fuel 540 0 780 = none := by
    intro fuel
    induction fuel with
    | zero => rfl
    | succ n ih => simp [slotsLoop, ih]
  refine ⟨by decide, by decide, hloop, ?_⟩
  have hdef : generate_time_slots "09:00" "13:00" 0 =
      (match slotsLoop 241 540 0 780 with
       | some l => some (l.map fmtMin)
       | none => none) := rfl
  rw [hdef, hloop 241]

/-- C4: for a positive duration and parseable times, `generate_time_slots`
emits the arithmetic progression starting at `open_time` with step
`duration`, containing exactly the start times whose slot still ends by
`close_time`; and the two concrete examples of the spec hold.  (Determinism
is immediate: the embedding is a pure function of its arguments.) -/
theorem c4_slot_sequence :
    (∀ (sS eS : String) (d : Int) (s e : Nat),
       parseHM sS = some s → parseHM eS = some e → 1 ≤ d →
       ∃ out : List Int,
         generate_time_slots sS eS d = some (out.map fmtMin) ∧
         out = (List.range out.length).map (fun k : Nat => (s : Int) + (k : Int) * d) ∧
         (∀ k : Nat, ((s : Int) + (k : Int) * d + d ≤ (e : Int) ↔ k < out.length))) ∧
    generate_time_slots "09:00" "13:00" 15 =
      some ["09:00", "09:15", "09:30", "09:45", "10:00", "10:15", "10:30", "10:45",
            "11:00", "11:15", "11:30", "11:45", "12:00", "12:15", "12:30", "12:45"] ∧
    generate_time_slots "10:00" "10:10" 15 = some [] := by
  refine ⟨?_, by decide, by decide⟩
  intro sS eS d s e hs he hd
  obtain ⟨out, hrun, hshape, hiff⟩ :=
    slotsLoop_char d hd (((e : Int) - (s : Int)).toNat + 1) (s : Int) (e : Int)
      (Nat.lt_succ_self _)
  refine ⟨out, ?_, hshape, hiff⟩
  simp only [generate_time_slots, hs, he, hrun]



/-! ## Lemmas about the submission pipeline -/

/-- When `validate_booking_data` produces processed data at all, the outcome
is the success triple and the processed record carries the form fields
through unchanged. -/
theorem vbd_some_fields (cfg : Config) (today : DateT) (fd : FormData)
    (b : Bool) (m : Option String) (bd : BookingData)
    (h : validate_booking_data cfg today fd = (b, m, some bd)) :
    b = true ∧ m = none ∧
    bd.location = vget fd.location ∧
    bd.blood_test_date = fd.blood_test_date ∧
    bd.blood_test_time = fd.blood_test_time ∧
    bd.consultation_date = fd.consultation_date ∧
    bd.consultation_time = fd.consultation_time := by
  unfold validate_booking_data at h
  rcases hinner : validate_booking_data_inner cfg today fd with e | t
  · rw [hinner] at h
    simp at h
  · rw [hinner] at h
    unfold validate_booking_data_inner at hinner
    repeat' split at hinner
    all_goals simp_all
    all_goals obtain ⟨-, -, hbd⟩ := hinner
    all_goals subst hbd
    all_goals simp


/-- Characterization of a successful `submit_booking` request: every guard
passed, the availability check approved the processed record, and the
database grew by exactly that record under the fresh row id. -/
theorem submit_success_spec (cfg : Config) (today : DateT) (db : DB)
    (fd : FormData) (id : Nat) (db2 : DB)
    (h : submit_booking cfg today db fd = (.success id, db2)) :
    ∃ bd m2 m3,
      validate_booking_data cfg today fd = (true, m2, some bd) ∧
      cfg.locations.contains bd.location = true ∧
      (truthy bd.blood_test_date &&
        !(validate_blood_test_date cfg (vget bd.blood_test_date))) = false ∧
      (truthy bd.consultation_date &&
        !(validate_consultation_date cfg (vget bd.consultation_date))) = false ∧
      validate_slot_availability cfg today db bd = some (true, m3) ∧
      id = db.nextId ∧ db2 = ⟨db.nextId + 1, db.rows ++ [(db.nextId, bd)]⟩ := by
  unfold submit_booking at h
  rcases hveq : validate_booking_data cfg today fd with ⟨b, m, p⟩
  rw [hveq] at h
  cases b
  · simp at h
  · cases p with
    | none => simp at h
    | some bd =>
      dsimp only at h
      repeat' split at h
      all_goals try (exfalso; simp at h; done)
      simp only [save_booking] at h
      rw [Prod.mk.injEq] at h
      obtain ⟨h1, h2⟩ := h
      injection h1 with hid
      exact ⟨bd, m, _, rfl, by simp_all, by simp_all, by simp_all,
        by assumption, hid.symm, h2.symm⟩

/-- Every non-committing branch of `submit_booking` leaves the database
untouched. -/
theorem submit_db_cases (cfg : Config) (today : DateT) (db : DB) (fd : FormData) :
    (submit_booking cfg today db fd).2 = db ∨
    ∃ id, (submit_booking cfg today db fd).1 = .success id := by
  unfold submit_booking
  repeat' split
  all_goals simp [save_booking]



/-- When the availability check approves a record, its blood-test leg named
an actual date that passed the past-date check, and a time that is one of
the generated slots and still has a seat in the requested cabin. -/
theorem slot_avail_true_blood (cfg : Config) (today : DateT) (db : DB)
    (bd : BookingData) (m : Option String)
    (h : validate_slot_availability cfg today db bd = some (true, m)) :
    ∃ d t all_slots,
      bd.blood_test_date = some d ∧
      dateOkStr today d = true ∧
      bd.blood_test_time = some t ∧
      generate_time_slots cfg.blood_test_start_time cfg.blood_test_end_time
        cfg.slot_duration_blood = some all_slots ∧
      t ∈ all_slots ∧
      (countRows db.rows (fun r =>
         r.blood_test_date == some d &&
         (match bd.blood_test_cabin with
          | some c => r.blood_test_cabin == some c
          | none => false) &&
         r.location == bd.location && r.blood_test_time == some t) : Int)
        < cfg.people_per_blood_cabin := by
  unfold validate_slot_availability at h
  rcases hbg : blood_get_available_slots cfg today db bd.blood_test_date
      bd.blood_test_cabin bd.location with _ | blood_available
  · rw [hbg] at h
    repeat' split at h
    all_goals simp_all
  · rw [hbg] at h
    dsimp only at h
    have htime : (match bd.blood_test_time with
        | some t => blood_available.contains t
        | none => false) = true := by
      by_contra hx
      repeat' split at h
      all_goals simp_all
    rcases ht : bd.blood_test_time with _ | t
    · rw [ht] at htime
      exact absurd htime (by simp)
    · rw [ht] at htime
      unfold blood_get_available_slots at hbg
      rcases hd : bd.blood_test_date with _ | d
    -- a `None` date would have crashed the availability read
      · rw [hd] at hbg
        simp at hbg
      · rw [hd] at hbg
        dsimp only at hbg
        by_cases hok : dateOkStr today d = true
        · rw [if_neg (by simp [hok])] at hbg
          rcases hgen : generate_time_slots cfg.blood_test_start_time
              cfg.blood_test_end_time cfg.slot_duration_blood with _ | all_slots
          · rw [hgen] at hbg
            simp at hbg
          · rw [hgen] at hbg
            dsimp only at hbg
            have hav : blood_available = all_slots.filter (fun slot =>
                (countRows db.rows (fun r =>
                   r.blood_test_date == some d &&
                   (match bd.blood_test_cabin with
                    | some c => r.blood_test_cabin == some c
                    | none => false) &&
                   r.location == bd.location && r.blood_test_time == some slot) : Int)
                  < cfg.people_per_blood_cabin) := by
              simpa using hbg.symm
            have hmem : t ∈ all_slots.filter (fun slot =>
                (countRows db.rows (fun r =>
                   r.blood_test_date == some d &&
                   (match bd.blood_test_cabin with
                    | some c => r.blood_test_cabin == some c
                    | none => false) &&
                   r.location == bd.location && r.blood_test_time == some slot) : Int)
                  < cfg.people_per_blood_cabin) := by
              rw [← hav]
              simpa using htime
            have hmem2 := List.mem_filter.mp hmem
            exact ⟨d, t, all_slots, rfl, hok, rfl, rfl, hmem2.1,
              by simpa using hmem2.2⟩
        · rw [if_pos (by simp [hok])] at hbg
          have hemp : blood_available = [] := by simpa using hbg.symm
          rw [hemp] at htime
          exact absurd htime (by simp)


/-- When the availability check approves a record that carries a (truthy)
consultation leg, the consultation slot still had pooled capacity at read
time. -/
theorem slot_avail_true_consult (cfg : Config) (today : DateT) (db : DB)
    (bd : BookingData) (m : Option String)
    (h : validate_slot_availability cfg today db bd = some (true, m))
    (hcd : truthy bd.consultation_date = true)
    (hct : truthy bd.consultation_time = true) :
    ∃ d all_slots,
      bd.consultation_date = some d ∧
      dateOkStr today d = true ∧
      generate_time_slots cfg.consultation_start_time cfg.consultation_end_time
        cfg.slot_duration_consultation = some all_slots ∧
      vget bd.consultation_time ∈ all_slots ∧
      (countRows db.rows (fun r =>
         r.consultation_date == some d &&
         r.consultation_time == some (vget bd.consultation_time) &&
         r.location == bd.location) : Int)
        < cfg.consultation_cabins_count * cfg.people_per_consultation_cabin := by
  unfold validate_slot_availability at h
  rcases hcg : consultation_get_available_slots cfg today db bd.consultation_date
      bd.location with _ | avail
  · rw [hcg] at h
    repeat' split at h
    all_goals simp_all
  · rw [hcg] at h
    rcases avail with _ | avail
    · repeat' split at h
      all_goals simp_all
    · have hcont : avail.contains (vget bd.consultation_time) = true := by
        by_contra hx
        repeat' split at h
        all_goals simp_all
        all_goals (split at h <;> simp_all)
      unfold consultation_get_available_slots at hcg
      rcases hd : bd.consultation_date with _ | d
      · rw [hd] at hcg
        simp at hcg
      · rw [hd] at hcg
        dsimp only at hcg
        by_cases hok : dateOkStr today d = true
        · rw [if_neg (by simp [hok])] at hcg
          rcases hgen : generate_time_slots cfg.consultation_start_time
              cfg.consultation_end_time cfg.slot_duration_consultation with _ | all_slots
          · rw [hgen] at hcg
            simp at hcg
          · rw [hgen] at hcg
            dsimp only at hcg
            have hav : avail = all_slots.filter (fun slot =>
                (countRows db.rows (fun r =>
                   r.consultation_date == some d &&
                   r.consultation_time == some slot &&
                   r.location == bd.location) : Int)
                  < cfg.consultation_cabins_count * cfg.people_per_consultation_cabin) := by
              simpa using hcg.symm
            have hmem : vget bd.consultation_time ∈ all_slots.filter (fun slot =>
                (countRows db.rows (fun r =>
                   r.consultation_date == some d &&
                   r.consultation_time == some slot &&
                   r.location == bd.location) : Int)
                  < cfg.consultation_cabins_count * cfg.people_per_consultation_cabin) := by
              rw [← hav]
              simpa using hcont
            have hmem2 := List.mem_filter.mp hmem
            exact ⟨d, all_slots, rfl, hok, rfl, hmem2.1, by simpa using hmem2.2⟩
        · rw [if_pos (by simp [hok])] at hcg
          simp at hcg


/-! ## Faithfulness of the two-phase concurrency model -/

/-- If the read phase decides to commit, a fully sequential execution of the
same request from the same database state saves exactly that record. -/
theorem commitDecision_some_submit (cfg : Config) (today : DateT) (db : DB)
    (fd : FormData) (bd : BookingData)
    (hc : commitDecision cfg today db fd = some bd) :
    submit_booking cfg today db fd =
      (.success db.nextId, ⟨db.nextId + 1, db.rows ++ [(db.nextId, bd)]⟩) := by
  unfold commitDecision at hc
  unfold submit_booking
  rcases hveq : validate_booking_data cfg today fd with ⟨b, m, p⟩
  rw [hveq] at hc
  cases b
  · simp at hc
  · cases p with
    | none => simp at hc
    | some bd0 =>
      dsimp only at hc ⊢
      repeat' split at hc
      all_goals simp_all [save_booking]
      all_goals rw [if_neg (by rintro ⟨h1, h2⟩; simp_all), if_neg (by rintro ⟨h1, h2⟩; simp_all)]

/-- If the read phase decides to reject, a fully sequential execution of the
same request from the same database state writes nothing. -/
theorem commitDecision_none_submit (cfg : Config) (today : DateT) (db : DB)
    (fd : FormData) (hc : commitDecision cfg today db fd = none) :
    (submit_booking cfg today db fd).2 = db ∧
    ∀ id, (submit_booking cfg today db fd).1 ≠ .success id := by
  have hns : ∀ id, (submit_booking cfg today db fd).1 ≠ .success id := by
    intro id hs
    have hpair : submit_booking cfg today db fd =
        (.success id, (submit_booking cfg today db fd).2) := by
      rw [← hs]
    obtain ⟨bd, m2, m3, hveq, hloc, hbt, hcd, hva, -, -⟩ :=
      submit_success_spec cfg today db fd id _ hpair
    unfold commitDecision at hc
    rw [hveq] at hc
    dsimp only at hc
    rw [if_pos (by rw [hloc, hbt, hcd]; rfl), hva] at hc
    simp at hc
  refine ⟨?_, hns⟩
  rcases submit_db_cases cfg today db fd with hcase | ⟨id, hcase⟩
  · exact hcase
  · exact absurd hcase (hns id)

/-- A single request run through the interleaving model with its read
immediately followed by its write reproduces the sequential handler's
final database: the two-phase split only matters under contention. -/
theorem runActs_single (cfg : Config) (today : DateT) (db : DB) (fd : FormData) :
    (runActs cfg today [fd] [.read 0, .write 0] db).db =
      (submit_booking cfg today db fd).2 := by
  rcases hc : commitDecision cfg today db fd with _ | bd
  · have h2 := (commitDecision_none_submit cfg today db fd hc).1
    rw [h2]
    simp [runActs, stepAct, hc]
  · rw [commitDecision_some_submit cfg today db fd bd hc]
    simp [runActs, stepAct, hc, save_booking]


/-! ## Claim theorems: concurrency and atomicity -/

/-- C1: the claim requires that `N + k` concurrent commits for one key yield
exactly `N` successes.  The code reads availability and inserts on separate
database connections with nothing serializing the pair, so under the
interleaving read-0, read-1, write-0, write-1 two requests for a
capacity-one key (people_per_blood_cabin = 1) both pass the check and both
commit: two reservations exist for a key of capacity one and both callers
are told they succeeded, where the claim demands one success and one
rejection. -/
theorem c1_overbooking_race :
    cfgRace.people_per_blood_cabin = 1 ∧
    (runActs cfgRace today0 [fdGood, fdGood]
        [.read 0, .read 1, .write 0, .write 1] emptyDB).ress =
      [some (some 0), some (some 1)] ∧
    countRows (runActs cfgRace today0 [fdGood, fdGood]
        [.read 0, .read 1, .write 0, .write 1] emptyDB).db.rows
      (fun r => r.blood_test_date == some "2025-08-19" &&
        r.blood_test_cabin == some 1 && r.location == "bangalore" &&
        r.blood_test_time == some "09:00") = 2 := by
  refine ⟨rfl, by decide, by decide⟩

/-- C2: in the sequential handler, a submission carrying both legs whose
consultation slot is already at pooled capacity commits nothing: the
database is unchanged and the caller is not redirected to the success
page.  (The blood-test leg is never written on its own.) -/
theorem c2_consult_exhausted_no_commit (cfg : Config) (today : DateT)
    (db : DB) (fd : FormData) (d t : String)
    (hd : fd.consultation_date = some d) (ht : fd.consultation_time = some t)
    (hd0 : d ≠ "") (ht0 : t ≠ "")
    (hex : (cfg.consultation_cabins_count * cfg.people_per_consultation_cabin : Int) ≤
        countRows db.rows (fun r =>
          r.consultation_date == some d && r.consultation_time == some t &&
          r.location == vget fd.location)) :
    (submit_booking cfg today db fd).2 = db ∧
    ∀ id, (submit_booking cfg today db fd).1 ≠ .success id := by
  have hns : ∀ id, (submit_booking cfg today db fd).1 ≠ .success id := by
    intro id hs
    have hpair : submit_booking cfg today db fd =
        (.success id, (submit_booking cfg today db fd).2) := by
      rw [← hs]
    obtain ⟨bd, m2, m3, hveq, hloc, hbt, hcd, hva, -, -⟩ :=
      submit_success_spec cfg today db fd id _ hpair
    obtain ⟨-, -, hbloc, -, -, hbcd, hbct⟩ :=
      vbd_some_fields cfg today fd true m2 bd hveq
    have hbcd' : bd.consultation_date = some d := by rw [hbcd, hd]
    have hbct' : bd.consultation_time = some t := by rw [hbct, ht]
    obtain ⟨d2, all2, hd2, -, -, -, hcnt⟩ :=
      slot_avail_true_consult cfg today db bd m3 hva
        (by simp [truthy, hbcd', hd0]) (by simp [truthy, hbct', ht0])
    rw [hbcd'] at hd2
    have hdd : d2 = d := by
      injection hd2.symm
    rw [hdd, hbloc, hbct'] at hcnt
    have hvt : vget (some t) = t := rfl
    rw [hvt] at hcnt
    omega
  refine ⟨?_, hns⟩
  rcases submit_db_cases cfg today db fd with hcase | ⟨id, hcase⟩
  · exact hcase
  · exact absurd hcase (hns id)

/-- Witness for `c2_consult_exhausted_no_commit` at a concrete state: four
prior consultations exhaust the pooled capacity 4 x 1 for
(2025-08-25, 10:00, bangalore); a both-legs submission then commits
nothing. -/
theorem c2_consult_exhausted_no_commit_witness :
    (submit_booking defaultConfig today0 dbConsFull fdBoth).2 = dbConsFull ∧
    ∀ id, (submit_booking defaultConfig today0 dbConsFull fdBoth).1 ≠ .success id :=
  c2_consult_exhausted_no_commit defaultConfig today0 dbConsFull fdBoth
    "2025-08-25" "10:00" rfl rfl (by decide) (by decide) (by decide)


/-! ## Claim theorems: availability queries -/

/-- C6 (amended): the three availability query shapes return their
empty/`None` marker whenever the date is unparseable or strictly before
today — the two conditions `is_valid_date` actually checks.  (The
allowed-date-list condition is not checked by these functions; see the
counterexample.) -/
theorem c6_invalid_date_empty (cfg : Config) (today : DateT) (db : DB)
    (s loc : String) (cabin : Option Int)
    (h : dateOkStr today s = false) :
    get_cabin_availability cfg today db (some s) loc = some [] ∧
    get_slots_with_availability cfg today db (some s) cabin loc = some [] ∧
    consultation_get_available_slots cfg today db (some s) loc = some none := by
  unfold get_cabin_availability get_slots_with_availability
    consultation_get_available_slots
  simp [h]

/-- Witness for `c6_invalid_date_empty`: a past date (and the same shape for
every date failing the check) yields the empty/`None` result. -/
theorem c6_invalid_date_empty_witness :
    dateOkStr today0 "2020-01-01" = false ∧
    get_cabin_availability defaultConfig today0 emptyDB (some "2020-01-01")
      "bangalore" = some [] ∧
    get_slots_with_availability defaultConfig today0 emptyDB (some "2020-01-01")
      (some 1) "bangalore" = some [] ∧
    consultation_get_available_slots defaultConfig today0 emptyDB
      (some "2020-01-01") "bangalore" = some none := by
  have h := c6_invalid_date_empty defaultConfig today0 emptyDB "2020-01-01"
    "bangalore" (some 1) (by decide)
  exact ⟨by decide, h.1, h.2.1, h.2.2⟩

/-- C6 counterexample: a future, parseable date that is absent from the
service's allowed-date list sails straight past `is_valid_date`, and
`get_cabin_availability` reports full availability instead of the
empty/zero result the claim demands.  (The allow-list is enforced only by
the HTTP routes in `app.py`, not by the query functions.) -/
theorem c6_allowlist_not_checked :
    dateOkStr today0 "2025-09-01" = true ∧
    defaultConfig.blood_test_allowed_dates.contains "2025-09-01" = false ∧
    get_cabin_availability defaultConfig today0 emptyDB (some "2025-09-01")
      "bangalore" = some [(1, 64), (2, 64), (3, 64), (4, 64)] := by
  refine ⟨by decide, by decide, by decide⟩

/-- C5: for a date that passes the past-date check (and a parseable
schedule), `get_cabin_availability` maps every cabin in `[1, cabins_count]`
to `max 0 (slot_count * people_per_cabin - booked)` and
`get_slots_with_availability` maps every generated slot to
`max 0 (people_per_cabin - booked)`; every reported value is ≥ 0. -/
theorem c5_availability_floor (cfg : Config) (today : DateT) (db : DB)
    (d loc : String) (cabin : Option Int) (all_slots : List String)
    (hok : dateOkStr today d = true)
    (hgen : generate_time_slots cfg.blood_test_start_time cfg.blood_test_end_time
      cfg.slot_duration_blood = some all_slots) :
    (∃ l : List (Int × Int), get_cabin_availability cfg today db (some d) loc = some l ∧
       (∀ c : Int, 1 ≤ c → c ≤ cfg.blood_test_cabins_count →
         (c, max 0 ((all_slots.length : Int) * cfg.people_per_blood_cabin -
            (countRows db.rows (fun r => r.blood_test_date == some d &&
               r.blood_test_cabin == some c && r.location == loc) : Int))) ∈ l) ∧
       (∀ p ∈ l, 0 ≤ p.2)) ∧
    (∃ sl : List (String × Int), get_slots_with_availability cfg today db (some d) cabin loc = some sl ∧
       (∀ slot ∈ all_slots,
         (slot, max (0 : Int) (cfg.people_per_blood_cabin -
            (countRows db.rows (fun r => r.blood_test_date == some d &&
               (match cabin with
                | some c => r.blood_test_cabin == some c
                | none => false) &&
               r.location == loc && r.blood_test_time == some slot) : Int))) ∈ sl) ∧
       (∀ p ∈ sl, 0 ≤ p.2)) := by
  have hcab : get_cabin_availability cfg today db (some d) loc =
      some ((cabinsRange cfg.blood_test_cabins_count).map (fun c =>
        (c, max 0 ((all_slots.length : Int) * cfg.people_per_blood_cabin -
          (countRows db.rows (fun r => r.blood_test_date == some d &&
            r.blood_test_cabin == some c && r.location == loc) : Int))))) := by
    unfold get_cabin_availability
    dsimp only
    rw [if_neg (by simp [hok]), hgen]
  have hslots : get_slots_with_availability cfg today db (some d) cabin loc =
      some (all_slots.map (fun slot =>
        (slot, max 0 (cfg.people_per_blood_cabin -
          (countRows db.rows (fun r => r.blood_test_date == some d &&
            (match cabin with
             | some c => r.blood_test_cabin == some c
             | none => false) &&
            r.location == loc && r.blood_test_time == some slot) : Int))))) := by
    unfold get_slots_with_availability
    dsimp only
    rw [if_neg (by simp [hok]), hgen]
  constructor
  · refine ⟨_, hcab, ?_, ?_⟩
    · intro c h1 h2
      apply List.mem_map.mpr
      refine ⟨c, ?_, rfl⟩
      unfold cabinsRange
      apply List.mem_map.mpr
      have h3 : (c - 1).toNat < cfg.blood_test_cabins_count.toNat := by omega
      have h4 : ((c - 1).toNat : Int) + 1 = c := by omega
      exact ⟨(c - 1).toNat, List.mem_range.mpr h3, h4⟩
    · intro p hp
      obtain ⟨c, -, rfl⟩ := List.mem_map.mp hp
      simp
  · refine ⟨_, hslots, ?_, ?_⟩
    · intro slot hs
      exact List.mem_map.mpr ⟨slot, hs, rfl⟩
    · intro p hp
      obtain ⟨slot, -, rfl⟩ := List.mem_map.mp hp
      simp

/-- Witness for `c5_availability_floor` on a shrunken schedule (two slots,
one seat per cabin) with three prior bookings: more history than capacity,
and the reported values still satisfy the characterization with its
`max 0` floor (the slot 09:00 entry floors at 0). -/
theorem c5_availability_floor_witness :
    (∃ l : List (Int × Int), get_cabin_availability cfgShrink today0 dbShrink (some "2025-08-19")
        "bangalore" = some l ∧
       (∀ c : Int, 1 ≤ c → c ≤ cfgShrink.blood_test_cabins_count →
         (c, max 0 (((["09:00", "09:15"] : List String).length : Int) *
              cfgShrink.people_per_blood_cabin -
            (countRows dbShrink.rows (fun r => r.blood_test_date == some "2025-08-19" &&
               r.blood_test_cabin == some c && r.location == "bangalore") : Int))) ∈ l) ∧
       (∀ p ∈ l, 0 ≤ p.2)) ∧
    (∃ sl : List (String × Int), get_slots_with_availability cfgShrink today0 dbShrink
        (some "2025-08-19") (some 1) "bangalore" = some sl ∧
       (∀ slot ∈ (["09:00", "09:15"] : List String),
         (slot, max (0 : Int) (cfgShrink.people_per_blood_cabin -
            (countRows dbShrink.rows (fun r => r.blood_test_date == some "2025-08-19" &&
               (match (some 1 : Option Int) with
                | some c => r.blood_test_cabin == some c
                | none => false) &&
               r.location == "bangalore" && r.blood_test_time == some slot) : Int))) ∈ sl) ∧
       (∀ p ∈ sl, 0 ≤ p.2)) :=
  c5_availability_floor cfgShrink today0 dbShrink "2025-08-19" "bangalore"
    (some 1) ["09:00", "09:15"] (by decide) (by decide)


/-- Witness for `c4_slot_sequence` at the spec's first example. -/
theorem c4_slot_sequence_witness :
    ∃ out : List Int,
      generate_time_slots "09:00" "13:00" 15 = some (out.map fmtMin) ∧
      out = (List.range out.length).map
        (fun k : Nat => ((540 : Nat) : Int) + (k : Int) * 15) ∧
      (∀ k : Nat, (((540 : Nat) : Int) + (k : Int) * 15 + 15 ≤ ((780 : Nat) : Int) ↔
        k < out.length)) :=
  c4_slot_sequence.1 "09:00" "13:00" 15 540 780 (by decide) (by decide) (by decide)

/-! ## Claim theorems: date-window validation -/

/-- C7: during submission, a parseable, non-past blood-test date that is
absent from the allow-list is rejected by the allow-list check, while a
past date is rejected by the past-date check even when it is in the
allow-list, and the two reason strings differ. -/
theorem c7_date_window_independent (cfg : Config) (today : DateT) (db : DB)
    (fd : FormData) (ds : String) (dd : DateT) (a : Int)
    (hreq : (truthy fd.name && truthy fd.email && truthy fd.age && truthy fd.gender &&
             truthy fd.phone && truthy fd.location) = true)
    (hloc : cfg.locations.contains (vget fd.location) = true)
    (hage : strToInt (vget fd.age) = some a)
    (hbd : fd.blood_test_date = some ds)
    (hparse : parseDate ds = some dd)
    (hcab : ∃ cv : Int, pyInt fd.blood_test_cabin = .ok cv)
    (hnocons : fd.consultation_date = none) :
    (dateLe today dd = true → cfg.blood_test_allowed_dates.contains ds = false →
       submit_booking cfg today db fd =
         (.redirected "Invalid blood test date. Please select from the available dates.", db)) ∧
    (dateLe today dd = false →
       submit_booking cfg today db fd =
         (.redirected "Invalid blood test date or date is in the past", db)) ∧
    "Invalid blood test date. Please select from the available dates." ≠
      "Invalid blood test date or date is in the past" := by
  obtain ⟨cv, hcab⟩ := hcab
  have hds0 : ds ≠ "" := by
    intro h0
    rw [h0, show parseDate "" = none from by decide] at hparse
    simp at hparse
  have htr : truthy fd.blood_test_date = true := by
    simp [truthy, hbd]
    exact hds0
  have hvgd : vget fd.blood_test_date = ds := by simp [vget, hbd]
  have htrc : truthy fd.consultation_date = false := by simp [truthy, hnocons]
  have hlocm : vget fd.location ∈ cfg.locations := by simpa using hloc
  refine ⟨?_, ?_, by decide⟩
  · intro hfut hnal
    have hnalm : ds ∉ cfg.blood_test_allowed_dates := by simpa using hnal
    have hdok : dateOkStr today (vget fd.blood_test_date) = true := by
      rw [hvgd]
      simp [dateOkStr, hparse, hfut]
    have hi : validate_booking_data_inner cfg today fd = .ok (true, none, some
        { name := vget fd.name, email := vget fd.email, age := a,
          gender := vget fd.gender, phone := vget fd.phone,
          location := vget fd.location,
          blood_test_date := fd.blood_test_date,
          blood_test_time := fd.blood_test_time,
          blood_test_cabin := some cv,
          consultation_date := fd.consultation_date,
          consultation_time := fd.consultation_time }) := by
      unfold validate_booking_data_inner
      rw [if_neg (not_not_intro hreq), if_neg (not_not_intro hloc), hage]
      dsimp only
      rw [htr]
      dsimp only
      rw [hcab]
      dsimp only
      rw [if_neg (by simp [hdok]), if_neg (by simp [htrc])]
    have hv : validate_booking_data cfg today fd = (true, none, some
        { name := vget fd.name, email := vget fd.email, age := a,
          gender := vget fd.gender, phone := vget fd.phone,
          location := vget fd.location,
          blood_test_date := fd.blood_test_date,
          blood_test_time := fd.blood_test_time,
          blood_test_cabin := some cv,
          consultation_date := fd.consultation_date,
          consultation_time := fd.consultation_time }) := by
      unfold validate_booking_data
      rw [hi]
    unfold submit_booking
    rw [hv]
    dsimp only
    rw [if_neg (by simp [hlocm])]
    rw [if_pos (by
      rw [htr, hvgd]
      simp [validate_blood_test_date, hparse, hnalm])]
  · intro hpast
    have hdokf : dateOkStr today (vget fd.blood_test_date) = false := by
      rw [hvgd]
      simp [dateOkStr, hparse, hpast]
    have hi : validate_booking_data_inner cfg today fd =
        .ok (false, some "Invalid blood test date or date is in the past", none) := by
      unfold validate_booking_data_inner
      rw [if_neg (not_not_intro hreq), if_neg (not_not_intro hloc), hage]
      dsimp only
      rw [htr]
      dsimp only
      rw [hcab]
      dsimp only
      rw [if_pos (by simp [hdokf])]
    have hv : validate_booking_data cfg today fd =
        (false, some "Invalid blood test date or date is in the past", none) := by
      unfold validate_booking_data
      rw [hi]
    unfold submit_booking
    rw [hv]
    rfl

/-- Witness for `c7_date_window_independent`: with today = 2025-08-19,
the future date 2025-09-01 (not in the allow-list) and the past date
2025-08-10 (with an allow-list containing it) are both rejected, with
distinct reasons. -/
theorem c7_date_window_independent_witness :
    ((dateLe today0 ⟨2025, 9, 1⟩ = true →
       defaultConfig.blood_test_allowed_dates.contains "2025-09-01" = false →
       submit_booking defaultConfig today0 emptyDB
           { fdGood with blood_test_date := some "2025-09-01" } =
         (.redirected "Invalid blood test date. Please select from the available dates.",
          emptyDB)) ∧
     (dateLe today0 ⟨2025, 9, 1⟩ = false →
       submit_booking defaultConfig today0 emptyDB
           { fdGood with blood_test_date := some "2025-09-01" } =
         (.redirected "Invalid blood test date or date is in the past", emptyDB)) ∧
     "Invalid blood test date. Please select from the available dates." ≠
       "Invalid blood test date or date is in the past") ∧
    ((dateLe ⟨2025, 8, 21⟩ ⟨2025, 8, 19⟩ = true →
       defaultConfig.blood_test_allowed_dates.contains "2025-08-19" = false →
       submit_booking defaultConfig ⟨2025, 8, 21⟩ emptyDB fdGood =
         (.redirected "Invalid blood test date. Please select from the available dates.",
          emptyDB)) ∧
     (dateLe ⟨2025, 8, 21⟩ ⟨2025, 8, 19⟩ = false →
       submit_booking defaultConfig ⟨2025, 8, 21⟩ emptyDB fdGood =
         (.redirected "Invalid blood test date or date is in the past", emptyDB)) ∧
     "Invalid blood test date. Please select from the available dates." ≠
       "Invalid blood test date or date is in the past") :=
  ⟨c7_date_window_independent defaultConfig today0 emptyDB
      { fdGood with blood_test_date := some "2025-09-01" } "2025-09-01"
      ⟨2025, 9, 1⟩ 30 (by decide) (by decide) (by decide) rfl (by decide)
      ⟨1, rfl⟩ rfl,
   c7_date_window_independent defaultConfig ⟨2025, 8, 21⟩ emptyDB
      fdGood "2025-08-19" ⟨2025, 8, 19⟩ 30 (by decide) (by decide) (by decide)
      rfl (by decide) ⟨1, rfl⟩ rfl⟩

/-! ## Claim theorems: reservation invariant -/

/-- C8 (amended): every reservation committed by the submission flow has a
Primary leg whose date is in the allowed-date set (parseable and not in
the past) and whose time is one of the generated slots; the cabin number,
however, is stored exactly as submitted and is not constrained to
`[1, blood_test_cabins_count]` (see the counterexample). -/
theorem c8_primary_leg_invariant (cfg : Config) (today : DateT) (db : DB)
    (fd : FormData) (id : Nat) (db2 : DB)
    (h : submit_booking cfg today db fd = (.success id, db2)) :
    ∃ bd d t all_slots,
      db2.rows = db.rows ++ [(db.nextId, bd)] ∧
      bd.blood_test_date = some d ∧
      cfg.blood_test_allowed_dates.contains d = true ∧
      (parseDate d).isSome = true ∧
      dateOkStr today d = true ∧
      bd.blood_test_time = some t ∧
      generate_time_slots cfg.blood_test_start_time cfg.blood_test_end_time
        cfg.slot_duration_blood = some all_slots ∧
      t ∈ all_slots := by
  obtain ⟨bd, m2, m3, hveq, hloc, hbt, hcd, hva, hid, hdb⟩ :=
    submit_success_spec cfg today db fd id db2 h
  obtain ⟨d, t, alls, hdd, hok, htt, hgen, hmem, -⟩ :=
    slot_avail_true_blood cfg today db bd m3 hva
  have hd0 : d ≠ "" := by
    intro h0
    rw [h0] at hok
    rw [show dateOkStr today "" = false from by
      simp [dateOkStr, show parseDate "" = none from by decide]] at hok
    exact Bool.noConfusion hok
  have htruthy : truthy bd.blood_test_date = true := by
    simp [truthy, hdd]
    exact hd0
  have hvb : validate_blood_test_date cfg (vget bd.blood_test_date) = true := by
    rcases hb : validate_blood_test_date cfg (vget bd.blood_test_date) with _ | _
    · rw [htruthy, hb] at hbt
      simp at hbt
    · rfl
  have hvgd : vget bd.blood_test_date = d := by simp [vget, hdd]
  rw [hvgd] at hvb
  unfold validate_blood_test_date at hvb
  rw [Bool.and_eq_true] at hvb
  obtain ⟨hps, hcont⟩ := hvb
  exact ⟨bd, d, t, alls, by rw [hdb], hdd, hcont, hps, hok, htt, hgen, hmem⟩

/-- Witness for `c8_primary_leg_invariant` on a concrete successful
submission. -/
theorem c8_primary_leg_invariant_witness :
    ∃ bd d t all_slots,
      (submit_booking defaultConfig today0 emptyDB fdGood).2.rows =
        emptyDB.rows ++ [(emptyDB.nextId, bd)] ∧
      bd.blood_test_date = some d ∧
      defaultConfig.blood_test_allowed_dates.contains d = true ∧
      (parseDate d).isSome = true ∧
      dateOkStr today0 d = true ∧
      bd.blood_test_time = some t ∧
      generate_time_slots defaultConfig.blood_test_start_time
        defaultConfig.blood_test_end_time defaultConfig.slot_duration_blood =
        some all_slots ∧
      t ∈ all_slots :=
  c8_primary_leg_invariant defaultConfig today0 emptyDB fdGood 0
    (submit_booking defaultConfig today0 emptyDB fdGood).2 (by decide)

/-- C8 counterexample: a submission naming cabin 5 — outside the configured
range `[1, 4]` — is committed unchanged: no code in the submission flow
checks the cabin number against `blood_test_cabins_count`. -/
theorem c8_cabin_out_of_range :
    defaultConfig.blood_test_cabins_count = 4 ∧
    (submit_booking defaultConfig today0 emptyDB fdCab5).1 = .success 0 ∧
    ((submit_booking defaultConfig today0 emptyDB fdCab5).2.rows.map
      (fun r => r.2.blood_test_cabin)) = [some 5] := by
  refine ⟨rfl, by decide, by decide⟩


/-! ## Claim theorems: deletion and validation totality -/

/-- All four availability queries are functions of the stored rows only:
availability is recomputed from reservation counts, never cached. -/
theorem queries_rows_only (cfg : Config) (today : DateT) (a b : DB)
    (h : a.rows = b.rows) :
    (∀ date loc, get_cabin_availability cfg today a date loc =
       get_cabin_availability cfg today b date loc) ∧
    (∀ date cab loc, get_slots_with_availability cfg today a date cab loc =
       get_slots_with_availability cfg today b date cab loc) ∧
    (∀ date loc, consultation_get_available_slots cfg today a date loc =
       consultation_get_available_slots cfg today b date loc) ∧
    (∀ date cab loc, blood_get_available_slots cfg today a date cab loc =
       blood_get_available_slots cfg today b date cab loc) := by
  refine ⟨?_, ?_, ?_, ?_⟩
  · intro date loc
    unfold get_cabin_availability
    rw [h]
  · intro date cab loc
    unfold get_slots_with_availability
    rw [h]
  · intro date loc
    unfold consultation_get_available_slots
    rw [h]
  · intro date cab loc
    unfold blood_get_available_slots
    rw [h]

/-- The freshly inserted row is found by its id when all prior ids are
smaller. -/
theorem find_fresh (rows : List (Nat × BookingData)) (nid : Nat) (bd : BookingData)
    (h : ∀ r ∈ rows, r.1 < nid) :
    (rows ++ [(nid, bd)]).find? (fun r => r.1 = nid) = some (nid, bd) := by
  induction rows with
  | nil => simp [List.find?]
  | cons a t ih =>
    have ha := h a (List.mem_cons_self a t)
    have ha' : (a.1 = nid) = False := by simp; omega
    rw [List.cons_append, List.find?]
    simp only [ha']
    simp only [decide_False]
    exact ih (fun r hr => h r (List.mem_cons_of_mem a hr))

/-- Deleting the freshly inserted id removes exactly that row. -/
theorem filter_fresh (rows : List (Nat × BookingData)) (nid : Nat) (bd : BookingData)
    (h : ∀ r ∈ rows, r.1 < nid) :
    (rows ++ [(nid, bd)]).filter (fun q => q.1 ≠ nid) = rows := by
  rw [List.filter_append]
  have h1 : [(nid, bd)].filter (fun q : Nat × BookingData => q.1 ≠ nid) = [] := by
    simp
  have h2 : rows.filter (fun q : Nat × BookingData => q.1 ≠ nid) = rows := by
    apply List.filter_eq_self.mpr
    intro q hq
    have := h q hq
    simp
    omega
  rw [h1, h2, List.append_nil]

/-- C9: committing a booking and then deleting the returned id succeeds,
restores the stored rows exactly, and leaves every availability query —
cabin summary, slot detail, consultation slots, and blood-test open slots —
with the value it had before the commit; no compensating action exists or
is needed. -/
theorem c9_delete_restores (cfg : Config) (today : DateT) (db : DB)
    (bd : BookingData) (hfresh : ∀ r ∈ db.rows, r.1 < db.nextId) :
    ((delete_booking_by_id (save_booking db bd).2 (save_booking db bd).1).1.1 = true) ∧
    ((delete_booking_by_id (save_booking db bd).2 (save_booking db bd).1).2.rows = db.rows) ∧
    (∀ date loc, get_cabin_availability cfg today
       (delete_booking_by_id (save_booking db bd).2 (save_booking db bd).1).2 date loc =
       get_cabin_availability cfg today db date loc) ∧
    (∀ date cab loc, get_slots_with_availability cfg today
       (delete_booking_by_id (save_booking db bd).2 (save_booking db bd).1).2 date cab loc =
       get_slots_with_availability cfg today db date cab loc) ∧
    (∀ date loc, consultation_get_available_slots cfg today
       (delete_booking_by_id (save_booking db bd).2 (save_booking db bd).1).2 date loc =
       consultation_get_available_slots cfg today db date loc) ∧
    (∀ date cab loc, blood_get_available_slots cfg today
       (delete_booking_by_id (save_booking db bd).2 (save_booking db bd).1).2 date cab loc =
       blood_get_available_slots cfg today db date cab loc) := by
  have hsave : save_booking db bd =
      (db.nextId, ⟨db.nextId + 1, db.rows ++ [(db.nextId, bd)]⟩) := rfl
  have hdel : delete_booking_by_id (save_booking db bd).2 (save_booking db bd).1 =
      ((true, some bd.name), ⟨db.nextId + 1, db.rows⟩) := by
    rw [hsave]
    unfold delete_booking_by_id
    dsimp only
    rw [find_fresh db.rows db.nextId bd hfresh]
    dsimp only
    rw [filter_fresh db.rows db.nextId bd hfresh]
  rw [hdel]
  have hq := queries_rows_only cfg today ⟨db.nextId + 1, db.rows⟩ db rfl
  exact ⟨rfl, rfl, hq.1, hq.2.1, hq.2.2.1, hq.2.2.2⟩

/-- Witness for `c9_delete_restores`: save-then-delete on a one-row store. -/
theorem c9_delete_restores_witness :
    ((delete_booking_by_id (save_booking ⟨1, [(0, consRow)]⟩ bloodRow).2
        (save_booking ⟨1, [(0, consRow)]⟩ bloodRow).1).1.1 = true) ∧
    ((delete_booking_by_id (save_booking ⟨1, [(0, consRow)]⟩ bloodRow).2
        (save_booking ⟨1, [(0, consRow)]⟩ bloodRow).1).2.rows = [(0, consRow)]) ∧
    (∀ date loc, get_cabin_availability defaultConfig today0
       (delete_booking_by_id (save_booking ⟨1, [(0, consRow)]⟩ bloodRow).2
         (save_booking ⟨1, [(0, consRow)]⟩ bloodRow).1).2 date loc =
       get_cabin_availability defaultConfig today0 ⟨1, [(0, consRow)]⟩ date loc) ∧
    (∀ date cab loc, get_slots_with_availability defaultConfig today0
       (delete_booking_by_id (save_booking ⟨1, [(0, consRow)]⟩ bloodRow).2
         (save_booking ⟨1, [(0, consRow)]⟩ bloodRow).1).2 date cab loc =
       get_slots_with_availability defaultConfig today0 ⟨1, [(0, consRow)]⟩ date cab loc) ∧
    (∀ date loc, consultation_get_available_slots defaultConfig today0
       (delete_booking_by_id (save_booking ⟨1, [(0, consRow)]⟩ bloodRow).2
         (save_booking ⟨1, [(0, consRow)]⟩ bloodRow).1).2 date loc =
       consultation_get_available_slots defaultConfig today0 ⟨1, [(0, consRow)]⟩ date loc) ∧
    (∀ date cab loc, blood_get_available_slots defaultConfig today0
       (delete_booking_by_id (save_booking ⟨1, [(0, consRow)]⟩ bloodRow).2
         (save_booking ⟨1, [(0, consRow)]⟩ bloodRow).1).2 date cab loc =
       blood_get_available_slots defaultConfig today0 ⟨1, [(0, consRow)]⟩ date cab loc) :=
  c9_delete_restores defaultConfig today0 ⟨1, [(0, consRow)]⟩ bloodRow (by decide)

/-- C10: `validate_booking_data` is total — every run returns either a
`(false, message, none)` or a `(true, none, processed)` triple, never an
uncaught exception; and specifically, when a blood-test date is present but
the cabin field is missing or non-numeric, the `int()` conversion raises
inside the `try` block and the outer handler surfaces it as
`(False, "Error validating data: …", None)`. -/
theorem c10_validation_total :
    (∀ (cfg : Config) (today : DateT) (fd : FormData),
       (∃ msg, validate_booking_data cfg today fd = (false, some msg, none)) ∨
       (∃ bd, validate_booking_data cfg today fd = (true, none, some bd))) ∧
    (∀ (cfg : Config) (today : DateT) (fd : FormData) (e : PyExn) (a : Int),
       (truthy fd.name && truthy fd.email && truthy fd.age && truthy fd.gender &&
        truthy fd.phone && truthy fd.location) = true →
       cfg.locations.contains (vget fd.location) = true →
       strToInt (vget fd.age) = some a →
       truthy fd.blood_test_date = true →
       pyInt fd.blood_test_cabin = .error e →
       validate_booking_data_inner cfg today fd = .error e ∧
       validate_booking_data cfg today fd =
         (false, some ("Error validating data: " ++ e.descr), none)) := by
  constructor
  · intro cfg today fd
    unfold validate_booking_data
    rcases hinner : validate_booking_data_inner cfg today fd with e | t
    · dsimp only
      left
      exact ⟨_, rfl⟩
    · dsimp only
      unfold validate_booking_data_inner at hinner
      repeat' split at hinner
      all_goals injection hinner
      all_goals rename_i hinner
      all_goals subst hinner
      all_goals simp
  · intro cfg today fd e a hreq hloc hage htr hcab
    have hi : validate_booking_data_inner cfg today fd = .error e := by
      unfold validate_booking_data_inner
      rw [if_neg (not_not_intro hreq), if_neg (not_not_intro hloc), hage]
      dsimp only
      rw [htr]
      dsimp only
      rw [hcab]
    refine ⟨hi, ?_⟩
    unfold validate_booking_data
    rw [hi]

/-- Witness for `c10_validation_total`: a present blood-test date with a
non-numeric cabin field is surfaced as an invalid-triple, not an
exception. -/
theorem c10_validation_total_witness :
    validate_booking_data_inner defaultConfig today0 fdBadCabin =
      .error (.valueError "abc") ∧
    validate_booking_data defaultConfig today0 fdBadCabin =
      (false, some ("Error validating data: " ++ (PyExn.valueError "abc").descr),
       none) :=
  c10_validation_total.2 defaultConfig today0 fdBadCabin (.valueError "abc") 30
    (by decide) (by decide) rfl (by decide) rfl

end Booking
